import Mathlib

/-
Verification of `update_cloudfront_r53_dns_record/cloudfront_dns_automation.py`.

The script's pure logic is embedded shallowly:
  * `validate_inputs` — the input validator (collects one message per blank field).
  * `checkAlias` — the readiness poller, modelled as a function over the finite
    sequence of distribution snapshots the CloudFront API would return on
    successive `get_distribution` calls, together with the sequence of jitter
    values `random.uniform(0, 5)` would produce; it returns the outcome, the
    number of fetches performed and the list of sleep durations.
  * `updateRecord` — the Route 53 change-batch builder.
  * `main` — the driver sequencing validation, polling and the DNS update call;
    it returns the run result together with the list of
    `change_resource_record_sets` calls issued.
-/

namespace CFDNS

/-- Python `s.rstrip('.')`: remove every trailing `'.'` character. -/
def rstripDots (s : String) : String :=
  String.mk (s.data.reverse.dropWhile (fun c => c == '.')).reverse

/-- One `get_distribution` response, reduced to the fields the script reads.
`aliasItems` is `none` when the key chain
`Distribution.DistributionConfig.Aliases.Items` is missing (the script's
`except KeyError` path); `isIPV6Enabled` is `none` when the
`IsIPV6Enabled` key is absent (the script's `.get(..., False)` default). -/
structure DistributionSnapshot where
  domainName : String
  aliasItems : Option (List String)
  isIPV6Enabled : Option Bool
deriving Repr, DecidableEq, Inhabited

/-- Outcome of the polling function `checkAlias`. -/
inductive PollOutcome where
  /-- The `while` loop exited and the script returned `ipv6_enabled`. -/
  | ready (ipv6_enabled : Bool)
  /-- The `ValueError` raised on the first-response domain comparison. -/
  | mismatch (expected actual : String)
  /-- The finite snapshot (or jitter) sequence ran out while the loop was
  still waiting; the real script would keep polling. -/
  | exhausted
deriving Repr, DecidableEq

/-- Observable trace of one `checkAlias` run: its outcome, how many
`cf.get_distribution` calls were made, and the `time.sleep` durations
(in seconds, in order). -/
structure PollTrace where
  outcome : PollOutcome
  fetches : Nat
  sleeps : List ℚ
deriving Repr, DecidableEq

/-- The `while not aliases or aliasName not in aliases` polling loop of `checkAlias`:
the head of `snapshots` is the most recently fetched response; on each
unsuccessful check the script sleeps `3 + jitter` seconds and fetches the
next response. -/
def runPoll (aliasName : String) : List DistributionSnapshot → List ℚ → PollTrace
  | [], _ => ⟨.exhausted, 0, []⟩
  | s :: rest, jitters =>
    if aliasName ∈ s.aliasItems.getD [] then
      ⟨.ready (s.isIPV6Enabled.getD false), 1, []⟩
    else
      match rest, jitters with
      | s' :: rest', j :: js =>
        let t := runPoll aliasName (s' :: rest') js
        ⟨t.outcome, t.fetches + 1, (3 + j) :: t.sleeps⟩
      | _, _ => ⟨.exhausted, 1, []⟩

/-- `checkAlias(cloudfrontID, aliasName, expected_domain)`: the first response's
`Distribution.DomainName` is compared (after `rstrip('.')` on both sides)
against `expected_domain`; a mismatch raises immediately.  Only then does the
script enter the polling loop.  The domain of later responses is never
examined. -/
def checkAlias (snapshots : List DistributionSnapshot) (jitters : List ℚ)
    (aliasName expected_domain : String) : PollTrace :=
  match snapshots with
  | [] => ⟨.exhausted, 0, []⟩
  | s :: _ =>
    if rstripDots expected_domain = rstripDots s.domainName then
      runPoll aliasName snapshots jitters
    else
      ⟨.mismatch expected_domain s.domainName, 1, []⟩

/-- Record types emitted by `updateRecord`. -/
inductive RecordType where
  | A
  | AAAA
deriving Repr, DecidableEq, Inhabited

/-- The only Route 53 change action the script uses. -/
inductive ChangeAction where
  | UPSERT
deriving Repr, DecidableEq, Inhabited

/-- The `AliasTarget` dictionary of a change. -/
structure AliasTarget where
  hostedZoneId : String
  dnsName : String
  evaluateTargetHealth : Bool
deriving Repr, DecidableEq, Inhabited

/-- The `ResourceRecordSet` dictionary of a change. -/
structure ResourceRecordSet where
  name : String
  type : RecordType
  aliasTarget : AliasTarget
deriving Repr, DecidableEq, Inhabited

/-- One element of the `Changes` list. -/
structure Change where
  action : ChangeAction
  resourceRecordSet : ResourceRecordSet
deriving Repr, DecidableEq, Inhabited

/-- The `ChangeBatch` dictionary passed to `change_resource_record_sets`. -/
structure ChangeBatch where
  comment : String
  changes : List Change
deriving Repr, DecidableEq, Inhabited

/-- The literal `'Z2FDTNDATAQYW2'`, CloudFront's alias-target hosted zone. -/
def cloudFrontHostedZoneId : String := "Z2FDTNDATAQYW2"

/-- `updateRecord(hostedzoneID, new_domain, aliasName, ipv6_enabled)`: builds the
change list (one A UPSERT, plus an AAAA UPSERT when `ipv6_enabled`) and calls
`change_resource_record_sets`; the result models that call's two arguments,
the hosted zone id and the change batch. -/
def updateRecord (hostedzoneID new_domain aliasName : String)
    (ipv6_enabled : Bool) : String × ChangeBatch :=
  let aRecord : Change :=
    ⟨.UPSERT, ⟨aliasName, .A, ⟨cloudFrontHostedZoneId, new_domain, false⟩⟩⟩
  let changes :=
    if ipv6_enabled then
      [aRecord, ⟨.UPSERT, ⟨aliasName, .AAAA, ⟨cloudFrontHostedZoneId, new_domain, false⟩⟩⟩]
    else
      [aRecord]
  (hostedzoneID, ⟨"CloudFront CNAME swap with IPv4 and IPv6 support", changes⟩)

/-- Python truthiness test used by `validate_inputs`:
`not s or not s.strip()`, i.e. the string is empty or whitespace-only
(whitespace here is ASCII whitespace, the common core of Python's
`str.strip` set). -/
def isBlank (s : String) : Bool := s.data.all (fun c => c.isWhitespace)

/-- Error line appended when `cloudfront_id` is blank. -/
def msgCloudFrontId : String :=
  "CloudFront distribution ID is required and must be a non-empty string"

/-- Error line appended when `hosted_zone_id` is blank. -/
def msgHostedZoneId : String :=
  "Route 53 hosted zone ID is required and must be a non-empty string"

/-- Error line appended when `new_domain` is blank. -/
def msgNewDomain : String :=
  "New CloudFront domain is required and must be a non-empty string"

/-- Error line appended when `aliasName` is blank. -/
def msgAlias : String :=
  "DNS alias is required and must be a non-empty string"

deriving instance DecidableEq for Except

/-- The `errors` list accumulated by `validate_inputs`, in program order.
(The script joins these lines into one `ValueError` message with
`"Input validation failed:\n" + "\n".join(...)`.) -/
def validationErrors (cloudfront_id hosted_zone_id new_domain aliasName : String) :
    List String :=
  (if isBlank cloudfront_id then [msgCloudFrontId] else []) ++
  (if isBlank hosted_zone_id then [msgHostedZoneId] else []) ++
  (if isBlank new_domain then [msgNewDomain] else []) ++
  (if isBlank aliasName then [msgAlias] else [])

/-- `validate_inputs`: raises `ValueError` carrying every accumulated error
line when any input is blank, otherwise returns normally. -/
def validate_inputs (cloudfront_id hosted_zone_id new_domain aliasName : String) :
    Except (List String) Unit :=
  if (validationErrors cloudfront_id hosted_zone_id new_domain aliasName).isEmpty then
    Except.ok ()
  else
    Except.error (validationErrors cloudfront_id hosted_zone_id new_domain aliasName)

/-- Terminal result of one run of `main`. -/
inductive RunResult where
  | validationFailure (msgs : List String)
  | domainMismatch (expected actual : String)
  /-- The finite snapshot model ran out while the script would still poll. -/
  | stillPolling
  | success (ipv6_enabled : Bool)
deriving Repr, DecidableEq

/-- `main()` after argument unpacking: validate, poll, then update DNS.
The second component collects the `change_resource_record_sets` calls made
during the run (each as hosted zone id × change batch). -/
def main (cloudfrontID hostedzoneID new_domain aliasName : String)
    (snapshots : List DistributionSnapshot) (jitters : List ℚ) :
    RunResult × List (String × ChangeBatch) :=
  match validate_inputs cloudfrontID hostedzoneID new_domain aliasName with
  | .error msgs => (.validationFailure msgs, [])
  | .ok _ =>
    match (checkAlias snapshots jitters aliasName new_domain).outcome with
    | .mismatch e a => (.domainMismatch e a, [])
    | .exhausted => (.stillPolling, [])
    | .ready b => (.success b, [updateRecord hostedzoneID new_domain aliasName b])

/-- Modelled from the spec: the DNS provider's record-set state, which the
repository itself never implements (Route 53 is an external collaborator).
A state maps a record name and type to the alias target currently stored,
`none` when no such record exists. -/
abbrev DnsState := String → RecordType → Option AliasTarget

/-- Modelled from the spec: "UPSERT: an update primitive that creates a
record if absent or replaces it if present, in one atomic step". -/
def applyChange (st : DnsState) (c : Change) : DnsState :=
  match c.action with
  | ChangeAction.UPSERT => fun n t =>
      if n = c.resourceRecordSet.name ∧ t = c.resourceRecordSet.type then
        some c.resourceRecordSet.aliasTarget
      else
        st n t

/-- Modelled from the spec: the provider applies the batch's changes in
order, atomically. -/
def applyBatch (st : DnsState) (b : ChangeBatch) : DnsState :=
  b.changes.foldl applyChange st

/-- The spec's description of the readiness domain comparison: strip a
single trailing `'.'` if present (to be contrasted with the code's
`rstrip('.')`, which strips all of them). -/
def stripOneTrailingDot (s : String) : String :=
  match s.data.reverse with
  | '.' :: rest => String.mk rest.reverse
  | _ => s

/- ### Helper lemmas about the polling loop -/

lemma runPoll_cons_mem (aliasName : String) (s : DistributionSnapshot)
    (rest : List DistributionSnapshot) (jitters : List ℚ)
    (h : aliasName ∈ s.aliasItems.getD []) :
    runPoll aliasName (s :: rest) jitters =
      ⟨.ready (s.isIPV6Enabled.getD false), 1, []⟩ := by
  rw [runPoll.eq_def]
  simp [h]

lemma runPoll_cons_not_mem_cons (aliasName : String) (s s' : DistributionSnapshot)
    (rest' : List DistributionSnapshot) (j : ℚ) (js : List ℚ)
    (h : aliasName ∉ s.aliasItems.getD []) :
    runPoll aliasName (s :: s' :: rest') (j :: js) =
      ⟨(runPoll aliasName (s' :: rest') js).outcome,
       (runPoll aliasName (s' :: rest') js).fetches + 1,
       (3 + j) :: (runPoll aliasName (s' :: rest') js).sleeps⟩ := by
  rw [runPoll.eq_def]
  simp [h]

/-- Traversal of the loop when the alias is absent from every snapshot of
`pre` and present in `sr`: the trace is fully determined. -/
lemma runPoll_found (aliasName : String) (sr : DistributionSnapshot)
    (post : List DistributionSnapshot)
    (hsr : aliasName ∈ sr.aliasItems.getD []) :
    ∀ (pre : List DistributionSnapshot) (jitters : List ℚ),
      (∀ t ∈ pre, aliasName ∉ t.aliasItems.getD []) →
      pre.length ≤ jitters.length →
      runPoll aliasName (pre ++ sr :: post) jitters =
        ⟨PollOutcome.ready (sr.isIPV6Enabled.getD false), pre.length + 1,
         (jitters.take pre.length).map (fun j => 3 + j)⟩ := by
  intro pre
  induction pre with
  | nil =>
    intro jitters _ _
    simpa using runPoll_cons_mem aliasName sr post jitters hsr
  | cons p pre' ih =>
    intro jitters hpre hlen
    cases jitters with
    | nil => simp at hlen
    | cons j js =>
      have hp : aliasName ∉ p.aliasItems.getD [] := hpre p (by simp)
      have hstep :
          runPoll aliasName ((p :: pre') ++ sr :: post) (j :: js) =
            ⟨(runPoll aliasName (pre' ++ sr :: post) js).outcome,
             (runPoll aliasName (pre' ++ sr :: post) js).fetches + 1,
             (3 + j) :: (runPoll aliasName (pre' ++ sr :: post) js).sleeps⟩ := by
        cases hq : pre' ++ sr :: post with
        | nil => exact absurd hq (by simp)
        | cons q l =>
          rw [List.cons_append, hq]
          exact runPoll_cons_not_mem_cons aliasName p q l j js hp
      rw [hstep, ih js (fun t ht => hpre t (by simp [ht])) (by simpa using hlen)]
      simp

/-- If the alias is in no snapshot of the sequence, the loop never declares
readiness (in the finite model it exhausts the sequence). -/
lemma runPoll_not_found (aliasName : String) :
    ∀ (l : List DistributionSnapshot) (jitters : List ℚ),
      (∀ t ∈ l, aliasName ∉ t.aliasItems.getD []) →
      (runPoll aliasName l jitters).outcome = PollOutcome.exhausted := by
  intro l
  induction l with
  | nil => intro jitters _; simp [runPoll]
  | cons s rest ih =>
    intro jitters h
    have hs : aliasName ∉ s.aliasItems.getD [] := h s (by simp)
    cases rest with
    | nil => simp [runPoll, hs]
    | cons s' rest' =>
      cases jitters with
      | nil => simp [runPoll, hs]
      | cons j js =>
        rw [runPoll_cons_not_mem_cons aliasName s s' rest' j js hs]
        exact ih js (fun t ht => h t (by simp [ht]))

/-- Given enough jitter values to traverse the sequence, the loop declares
readiness exactly when some snapshot's alias list contains the alias. -/
lemma runPoll_ready_iff (aliasName : String) :
    ∀ (l : List DistributionSnapshot) (jitters : List ℚ),
      l.length ≤ jitters.length + 1 →
      ((∃ b, (runPoll aliasName l jitters).outcome = PollOutcome.ready b) ↔
        ∃ t ∈ l, aliasName ∈ t.aliasItems.getD []) := by
  intro l
  induction l with
  | nil => intro jitters _; simp [runPoll]
  | cons s rest ih =>
    intro jitters hlen
    by_cases hs : aliasName ∈ s.aliasItems.getD []
    · rw [runPoll_cons_mem aliasName s rest jitters hs]
      simp [hs]
    · cases rest with
      | nil => simp [runPoll, hs]
      | cons s' rest' =>
        cases jitters with
        | nil => simp at hlen
        | cons j js =>
          rw [runPoll_cons_not_mem_cons aliasName s s' rest' j js hs]
          have := ih js (by simpa using hlen)
          simpa [hs] using this

/-- The loop itself never raises the domain-mismatch error: that error can
only come from the pre-loop comparison in `checkAlias`. -/
lemma runPoll_ne_mismatch (aliasName : String) :
    ∀ (l : List DistributionSnapshot) (jitters : List ℚ) (e a : String),
      (runPoll aliasName l jitters).outcome ≠ PollOutcome.mismatch e a := by
  intro l
  induction l with
  | nil => intro jitters e a; simp [runPoll]
  | cons s rest ih =>
    intro jitters e a
    by_cases hs : aliasName ∈ s.aliasItems.getD []
    · rw [runPoll_cons_mem aliasName s rest jitters hs]; simp
    · cases rest with
      | nil => simp [runPoll, hs]
      | cons s' rest' =>
        cases jitters with
        | nil => simp [runPoll, hs]
        | cons j js =>
          rw [runPoll_cons_not_mem_cons aliasName s s' rest' j js hs]
          exact ih js e a

/-- The loop reads only the alias lists and the IPv6 flags of the snapshots;
the domain names of the polled snapshots are never examined. -/
lemma runPoll_congr (aliasName : String) :
    ∀ {l l' : List DistributionSnapshot},
      List.Forall₂ (fun t t' => t.aliasItems = t'.aliasItems ∧
        t.isIPV6Enabled = t'.isIPV6Enabled) l l' →
      ∀ (jitters : List ℚ),
        runPoll aliasName l jitters = runPoll aliasName l' jitters := by
  intro l l' h
  induction h with
  | nil => intro jitters; rfl
  | cons hR htail ih =>
    intro jitters
    rename_i s s' rest rest'
    by_cases hs : aliasName ∈ s.aliasItems.getD []
    · have hs' : aliasName ∈ s'.aliasItems.getD [] := by rw [← hR.1]; exact hs
      rw [runPoll_cons_mem aliasName s rest jitters hs,
        runPoll_cons_mem aliasName s' rest' jitters hs', hR.2]
    · have hs' : aliasName ∉ s'.aliasItems.getD [] := by rw [← hR.1]; exact hs
      cases htail with
      | nil => simp [runPoll, hs, hs']
      | cons hR2 htail2 =>
        rename_i q q' tl tl'
        cases jitters with
        | nil => simp [runPoll, hs, hs']
        | cons j js =>
          rw [runPoll_cons_not_mem_cons aliasName s q tl j js hs,
            runPoll_cons_not_mem_cons aliasName s' q' tl' j js hs',
            ih js]

/-- `checkAlias` on a sequence whose `pre`-segment lacks the alias and whose
next snapshot `sr` has it, when the first snapshot's domain matches. -/
lemma checkAlias_found (aliasName expected_domain : String)
    (pre post : List DistributionSnapshot) (sr : DistributionSnapshot)
    (jitters : List ℚ)
    (hpre : ∀ t ∈ pre, aliasName ∉ t.aliasItems.getD [])
    (hsr : aliasName ∈ sr.aliasItems.getD [])
    (hjit : pre.length ≤ jitters.length)
    (hdom : rstripDots expected_domain =
      rstripDots (pre ++ sr :: post).headI.domainName) :
    checkAlias (pre ++ sr :: post) jitters aliasName expected_domain =
      ⟨PollOutcome.ready (sr.isIPV6Enabled.getD false), pre.length + 1,
       (jitters.take pre.length).map (fun j => 3 + j)⟩ := by
  cases pre with
  | nil =>
    simp only [List.nil_append, List.headI] at hdom ⊢
    rw [checkAlias, if_pos hdom]
    simpa using runPoll_found aliasName sr post hsr [] jitters (by simp) (by simp)
  | cons p pre' =>
    simp only [List.cons_append, List.headI] at hdom ⊢
    rw [checkAlias, if_pos hdom]
    exact runPoll_found aliasName sr post hsr (p :: pre') jitters hpre hjit

/-- `rstrip('.')` removes a trailing dot: appending one more trailing dot
does not change the normalized form. -/
lemma rstripDots_append_dot (d : String) : rstripDots (d ++ ".") = rstripDots d := by
  have hdata : (d ++ ".").data = d.data ++ ['.'] := by
    rw [String.data_append]
  simp [rstripDots, hdata]

/-- Whether a poll outcome declares readiness. -/
def PollOutcome.isReady : PollOutcome → Bool
  | .ready _ => true
  | _ => false

lemma checkAlias_cons (s : DistributionSnapshot) (rest : List DistributionSnapshot)
    (jitters : List ℚ) (aliasName e : String) :
    checkAlias (s :: rest) jitters aliasName e =
      if rstripDots e = rstripDots s.domainName then
        runPoll aliasName (s :: rest) jitters
      else
        ⟨PollOutcome.mismatch e s.domainName, 1, []⟩ := rfl

lemma checkAlias_cons_domain_ok (s : DistributionSnapshot)
    (rest : List DistributionSnapshot) (jitters : List ℚ) (aliasName e : String)
    (hdom : rstripDots e = rstripDots s.domainName) :
    checkAlias (s :: rest) jitters aliasName e =
      runPoll aliasName (s :: rest) jitters := by
  rw [checkAlias_cons, if_pos hdom]

lemma checkAlias_cons_domain_bad (s : DistributionSnapshot)
    (rest : List DistributionSnapshot) (jitters : List ℚ) (aliasName e : String)
    (hdom : rstripDots e ≠ rstripDots s.domainName) :
    checkAlias (s :: rest) jitters aliasName e =
      ⟨PollOutcome.mismatch e s.domainName, 1, []⟩ := by
  rw [checkAlias_cons, if_neg hdom]

/-- Characterization of readiness: with enough jitter values to walk the
whole sequence, `checkAlias` declares readiness exactly when the first
snapshot's canonical domain matches and some snapshot's alias list contains
the alias. -/
lemma checkAlias_isReady_iff (aliasName e : String) (s : DistributionSnapshot)
    (rest : List DistributionSnapshot) (jitters : List ℚ)
    (hlen : rest.length ≤ jitters.length) :
    (checkAlias (s :: rest) jitters aliasName e).outcome.isReady = true ↔
      (rstripDots e = rstripDots s.domainName ∧
        ∃ t ∈ s :: rest, aliasName ∈ t.aliasItems.getD []) := by
  have hready : ∀ o : PollOutcome, o.isReady = true ↔ ∃ b, o = PollOutcome.ready b := by
    intro o; cases o <;> simp [PollOutcome.isReady]
  by_cases hdom : rstripDots e = rstripDots s.domainName
  · rw [checkAlias_cons_domain_ok s rest jitters aliasName e hdom, hready]
    rw [show (∃ b, (runPoll aliasName (s :: rest) jitters).outcome = PollOutcome.ready b) ↔
        ∃ t ∈ s :: rest, aliasName ∈ t.aliasItems.getD [] from
      runPoll_ready_iff aliasName (s :: rest) jitters (by simpa using Nat.succ_le_succ hlen)]
    simp [hdom]
  · rw [checkAlias_cons_domain_bad s rest jitters aliasName e hdom]
    simp [PollOutcome.isReady, hdom]

/-- Pointwise permutation of alias lists preserves "some snapshot contains
the alias". -/
lemma exists_mem_alias_congr (aliasName : String) :
    ∀ {l l' : List DistributionSnapshot},
      List.Forall₂ (fun t t' => (t.aliasItems.getD []).Perm
        (t'.aliasItems.getD [])) l l' →
      ((∃ t ∈ l, aliasName ∈ t.aliasItems.getD []) ↔
        ∃ t ∈ l', aliasName ∈ t.aliasItems.getD []) := by
  intro l l' h
  induction h with
  | nil => simp
  | cons hR htail ih => simp [hR.mem_iff, ih]

/- ### Claims C1, C3, C6 -/

/-- Claim C1, counterexample: the poller declares readiness at the second
snapshot, whose alias list contains the requested alias but whose canonical
domain does not match the expected domain (the domain is only compared
against the first snapshot), so readiness is not "exactly when the alias is
present AND the domain matches". -/
theorem checkAlias_ready_despite_domain_mismatch :
    (checkAlias [⟨"d.net", some [], none⟩,
        ⟨"other.net", some ["www.example.com"], some false⟩] [0]
        "www.example.com" "d.net").outcome = PollOutcome.ready false ∧
    (checkAlias [⟨"d.net", some [], none⟩,
        ⟨"other.net", some ["www.example.com"], some false⟩] [0]
        "www.example.com" "d.net").fetches = 2 ∧
    rstripDots
        (⟨"other.net", some ["www.example.com"], some false⟩ :
          DistributionSnapshot).domainName ≠ rstripDots "d.net" := by
  decide

/-- Claim C1 (amended): readiness is declared exactly when the FIRST
snapshot's canonical domain matches the expected domain and the alias is a
member of some snapshot's configured alias list (the domain of later
snapshots is not consulted); an absent or empty alias list everywhere means
never ready; and readiness depends on alias lists only up to permutation
(and not on later snapshots' domains), i.e. membership is order
independent. -/
theorem checkAlias_readiness_condition (aliasName expected_domain : String)
    (s : DistributionSnapshot) (rest : List DistributionSnapshot)
    (jitters : List ℚ) (hlen : rest.length ≤ jitters.length) :
    ((checkAlias (s :: rest) jitters aliasName expected_domain).outcome.isReady = true ↔
      (rstripDots expected_domain = rstripDots s.domainName ∧
        ∃ t ∈ s :: rest, aliasName ∈ t.aliasItems.getD [])) ∧
    ((∀ t ∈ s :: rest, t.aliasItems.getD [] = []) →
      (checkAlias (s :: rest) jitters aliasName expected_domain).outcome.isReady = false) ∧
    (∀ (s' : DistributionSnapshot) (rest' : List DistributionSnapshot),
      s'.domainName = s.domainName →
      (s'.aliasItems.getD []).Perm (s.aliasItems.getD []) →
      List.Forall₂ (fun t t' => (t.aliasItems.getD []).Perm
        (t'.aliasItems.getD [])) rest rest' →
      (checkAlias (s' :: rest') jitters aliasName expected_domain).outcome.isReady =
        (checkAlias (s :: rest) jitters aliasName expected_domain).outcome.isReady) := by
  refine ⟨checkAlias_isReady_iff aliasName expected_domain s rest jitters hlen, ?_, ?_⟩
  · intro hempty
    rcases Bool.eq_false_or_eq_true
        ((checkAlias (s :: rest) jitters aliasName expected_domain).outcome.isReady)
      with hb | hb
    · obtain ⟨-, t, ht, hmem⟩ :=
        (checkAlias_isReady_iff aliasName expected_domain s rest jitters hlen).mp hb
      rw [hempty t ht] at hmem
      exact absurd hmem (List.not_mem_nil aliasName)
    · exact hb
  · intro s' rest' hdn hperm hforall
    have hlen' : rest'.length ≤ jitters.length := by
      rw [← List.Forall₂.length_eq hforall]; exact hlen
    have hmem : (∃ t ∈ s' :: rest', aliasName ∈ t.aliasItems.getD []) ↔
        ∃ t ∈ s :: rest, aliasName ∈ t.aliasItems.getD [] :=
      (exists_mem_alias_congr aliasName (List.Forall₂.cons hperm.symm hforall)).symm
    have hiff :
        ((checkAlias (s' :: rest') jitters aliasName expected_domain).outcome.isReady = true) ↔
        ((checkAlias (s :: rest) jitters aliasName expected_domain).outcome.isReady = true) := by
      rw [checkAlias_isReady_iff aliasName expected_domain s' rest' jitters hlen',
        checkAlias_isReady_iff aliasName expected_domain s rest jitters hlen, hdn, hmem]
    exact Bool.eq_iff_iff.mpr hiff

/-- Witness for the amended claim C1 at a concrete ready sequence. -/
theorem checkAlias_readiness_condition_witness :
    (checkAlias [⟨"d.net", some ["x", "w"], some true⟩] [] "w" "d.net").outcome.isReady = true :=
  ((checkAlias_readiness_condition "w" "d.net" ⟨"d.net", some ["x", "w"], some true⟩ [] []
      (by decide)).1).mpr (by decide)

/-- Claim C3, counterexample: the second fetched snapshot's canonical domain
differs from the expected domain, yet the poller does not raise; it sleeps
and re-polls (two sleeps, three fetches) and finally declares readiness —
so the domain is NOT compared on every iteration. -/
theorem checkAlias_sleeps_after_mismatching_snapshot :
    (checkAlias [⟨"good.net", some [], none⟩, ⟨"evil.net", some [], none⟩,
        ⟨"good.net", some ["www.example.com"], some true⟩] [1, 2]
        "www.example.com" "good.net").outcome = PollOutcome.ready true ∧
    (checkAlias [⟨"good.net", some [], none⟩, ⟨"evil.net", some [], none⟩,
        ⟨"good.net", some ["www.example.com"], some true⟩] [1, 2]
        "www.example.com" "good.net").fetches = 3 ∧
    (checkAlias [⟨"good.net", some [], none⟩, ⟨"evil.net", some [], none⟩,
        ⟨"good.net", some ["www.example.com"], some true⟩] [1, 2]
        "www.example.com" "good.net").sleeps.length = 2 ∧
    rstripDots (⟨"evil.net", some [], none⟩ : DistributionSnapshot).domainName ≠
      rstripDots "good.net" := by
  decide

/-- Claim C3 (amended): the canonical domain is compared only on the first
iteration, against the first fetched snapshot: a mismatch there raises the
error immediately — one fetch, no sleep, never retried — while on later
iterations the snapshot's domain name is never examined (replacing the
later snapshots by ones with arbitrary other domain names, keeping alias
lists and IPv6 flags, yields an identical trace). -/
theorem checkAlias_domain_checked_once (aliasName expected_domain : String)
    (s : DistributionSnapshot) (rest rest' : List DistributionSnapshot)
    (jitters : List ℚ) :
    (rstripDots expected_domain ≠ rstripDots s.domainName →
      checkAlias (s :: rest) jitters aliasName expected_domain =
        ⟨PollOutcome.mismatch expected_domain s.domainName, 1, []⟩) ∧
    (List.Forall₂ (fun t t' => t.aliasItems = t'.aliasItems ∧
        t.isIPV6Enabled = t'.isIPV6Enabled) rest rest' →
      checkAlias (s :: rest) jitters aliasName expected_domain =
        checkAlias (s :: rest') jitters aliasName expected_domain) := by
  constructor
  · intro hdom
    exact checkAlias_cons_domain_bad s rest jitters aliasName expected_domain hdom
  · intro hf
    by_cases hdom : rstripDots expected_domain = rstripDots s.domainName
    · rw [checkAlias_cons_domain_ok s rest jitters aliasName expected_domain hdom,
        checkAlias_cons_domain_ok s rest' jitters aliasName expected_domain hdom]
      exact runPoll_congr aliasName (List.Forall₂.cons ⟨rfl, rfl⟩ hf) jitters
    · rw [checkAlias_cons_domain_bad s rest jitters aliasName expected_domain hdom,
        checkAlias_cons_domain_bad s rest' jitters aliasName expected_domain hdom]

/-- Witness for the amended claim C3: a first-snapshot mismatch raises
immediately, with one fetch and no sleep. -/
theorem checkAlias_domain_checked_once_witness :
    checkAlias [⟨"bad.net", some [], none⟩] [] "w" "good.net" =
      ⟨PollOutcome.mismatch "good.net" "bad.net", 1, []⟩ :=
  (checkAlias_domain_checked_once "w" "good.net" ⟨"bad.net", some [], none⟩ [] [] []).1
    (by decide)

/-- Claim C6, counterexample: the expected domain `"host.net.."` and the
snapshot domain `"host.net"` still differ after stripping a single trailing
dot from each, yet the poller treats them as matching (no mismatch is
raised and readiness is declared), because the code strips ALL trailing
dots (`rstrip('.')`), not a single one. -/
theorem checkAlias_domain_compare_not_single_strip :
    (checkAlias [⟨"host.net", some ["w"], some false⟩] [] "w" "host.net..").outcome =
      PollOutcome.ready false ∧
    stripOneTrailingDot "host.net.." ≠ stripOneTrailingDot "host.net" ∧
    rstripDots "host.net.." = rstripDots "host.net" := by
  decide

/-- Claim C6 (amended): the readiness domain comparison normalizes each side
by stripping ALL trailing dots (Python `rstrip('.')`) and compares for
equality: a mismatch error occurs exactly when the fully-stripped forms
differ; in particular stripping is insensitive to one extra trailing dot,
so two forms differing only by one trailing root-label dot compare equal. -/
theorem checkAlias_domain_normalization (aliasName expected_domain : String)
    (s : DistributionSnapshot) (rest : List DistributionSnapshot)
    (jitters : List ℚ) :
    ((∃ e a, (checkAlias (s :: rest) jitters aliasName expected_domain).outcome =
        PollOutcome.mismatch e a) ↔
      rstripDots expected_domain ≠ rstripDots s.domainName) ∧
    (∀ d : String, rstripDots (d ++ ".") = rstripDots d) := by
  refine ⟨⟨?_, ?_⟩, rstripDots_append_dot⟩
  · rintro ⟨e, a, h⟩ hdom
    rw [checkAlias_cons_domain_ok s rest jitters aliasName expected_domain hdom] at h
    exact runPoll_ne_mismatch aliasName (s :: rest) jitters e a h
  · intro hdom
    exact ⟨expected_domain, s.domainName, by
      rw [checkAlias_cons_domain_bad s rest jitters aliasName expected_domain hdom]⟩

/- ### Claims C2, C4, C5, C10 -/

/-- Claim C2: the produced ChangeBatch has exactly one change (type A) when
`ipv6_enabled` is false and exactly two (one A then one AAAA) when it is
true; every change is an UPSERT carrying the alias name, the target domain,
the constant CloudFront alias-target hosted-zone id, and
`EvaluateTargetHealth = False`. -/
theorem updateRecord_change_batch (hostedzoneID new_domain aliasName : String) :
    (updateRecord hostedzoneID new_domain aliasName false).2.changes.length = 1 ∧
    (updateRecord hostedzoneID new_domain aliasName true).2.changes.length = 2 ∧
    ((updateRecord hostedzoneID new_domain aliasName false).2.changes.map
      (fun c => c.resourceRecordSet.type) = [RecordType.A]) ∧
    ((updateRecord hostedzoneID new_domain aliasName true).2.changes.map
      (fun c => c.resourceRecordSet.type) = [RecordType.A, RecordType.AAAA]) ∧
    (∀ (ipv6_enabled : Bool),
      ∀ c ∈ (updateRecord hostedzoneID new_domain aliasName ipv6_enabled).2.changes,
        c.action = ChangeAction.UPSERT ∧
        c.resourceRecordSet.name = aliasName ∧
        c.resourceRecordSet.aliasTarget.dnsName = new_domain ∧
        c.resourceRecordSet.aliasTarget.hostedZoneId = cloudFrontHostedZoneId ∧
        c.resourceRecordSet.aliasTarget.evaluateTargetHealth = false) := by
  refine ⟨rfl, rfl, rfl, rfl, ?_⟩
  intro ipv6_enabled c hc
  cases ipv6_enabled <;> simp [updateRecord] at hc
  · subst hc; exact ⟨rfl, rfl, rfl, rfl, rfl⟩
  · rcases hc with hc | hc <;> subst hc <;> exact ⟨rfl, rfl, rfl, rfl, rfl⟩

/-- Witness for claim C2: the A record of a dual-stack batch is an UPSERT. -/
theorem updateRecord_change_batch_witness :
    ((updateRecord "Z00646902JW6C5QG3Q2NG" "d2mz62fpvuge8k.cloudfront.net"
        "www.example.com" true).2.changes.headI.action = ChangeAction.UPSERT) :=
  ((updateRecord_change_batch "Z00646902JW6C5QG3Q2NG" "d2mz62fpvuge8k.cloudfront.net"
      "www.example.com").2.2.2.2 true
    ((updateRecord "Z00646902JW6C5QG3Q2NG" "d2mz62fpvuge8k.cloudfront.net"
        "www.example.com" true).2.changes.headI) (by decide)).1

/-- Claim C4: applying the batch built by `updateRecord` twice to any DNS
state yields the same state as applying it once — every change is an
UPSERT (create-or-replace), so the second application overwrites each
record with the value it already has. -/
theorem updateRecord_idempotent (st : DnsState)
    (hostedzoneID new_domain aliasName : String) (ipv6_enabled : Bool) :
    applyBatch (applyBatch st (updateRecord hostedzoneID new_domain aliasName ipv6_enabled).2)
        (updateRecord hostedzoneID new_domain aliasName ipv6_enabled).2 =
      applyBatch st (updateRecord hostedzoneID new_domain aliasName ipv6_enabled).2 := by
  cases ipv6_enabled <;>
    funext n t <;>
    simp only [updateRecord, applyBatch, applyChange, List.foldl] <;>
    split_ifs <;>
    simp_all

/-- Claim C5: validation fails exactly when some input is blank (empty or
whitespace-only), the raised error enumerates one message per blank field —
every violated field is named, not only the first — and no message for a
non-blank field ever appears. -/
theorem validate_inputs_reports_every_violation
    (cloudfront_id hosted_zone_id new_domain aliasName : String) :
    (validate_inputs cloudfront_id hosted_zone_id new_domain aliasName = Except.ok () ↔
      (isBlank cloudfront_id = false ∧ isBlank hosted_zone_id = false ∧
        isBlank new_domain = false ∧ isBlank aliasName = false)) ∧
    (msgCloudFrontId ∈ validationErrors cloudfront_id hosted_zone_id new_domain aliasName ↔
      isBlank cloudfront_id = true) ∧
    (msgHostedZoneId ∈ validationErrors cloudfront_id hosted_zone_id new_domain aliasName ↔
      isBlank hosted_zone_id = true) ∧
    (msgNewDomain ∈ validationErrors cloudfront_id hosted_zone_id new_domain aliasName ↔
      isBlank new_domain = true) ∧
    (msgAlias ∈ validationErrors cloudfront_id hosted_zone_id new_domain aliasName ↔
      isBlank aliasName = true) ∧
    (validationErrors cloudfront_id hosted_zone_id new_domain aliasName ≠ [] →
      validate_inputs cloudfront_id hosted_zone_id new_domain aliasName =
        Except.error (validationErrors cloudfront_id hosted_zone_id new_domain aliasName)) := by
  cases h1 : isBlank cloudfront_id <;> cases h2 : isBlank hosted_zone_id <;>
    cases h3 : isBlank new_domain <;> cases h4 : isBlank aliasName <;>
    simp [validate_inputs, validationErrors, h1, h2, h3, h4,
      msgCloudFrontId, msgHostedZoneId, msgNewDomain, msgAlias]

/-- Witness for claim C5: with the first two inputs blank, the error names
both of them. -/
theorem validate_inputs_reports_every_violation_witness :
    validate_inputs "" " " "d2mz62fpvuge8k.cloudfront.net" "www.example.com" =
      Except.error (validationErrors "" " " "d2mz62fpvuge8k.cloudfront.net" "www.example.com") :=
  (validate_inputs_reports_every_violation "" " "
      "d2mz62fpvuge8k.cloudfront.net" "www.example.com").2.2.2.2.2 (by decide)

/-- Claim C10: every emitted change carries the operator-supplied alias name
and target domain verbatim — both directly in `updateRecord`'s batch and in
every `change_resource_record_sets` call that `main` issues; in particular a
new domain supplied with a trailing dot is written to DNS with the dot
intact (no trailing-dot normalization is applied to the record name or the
alias-target domain). -/
theorem updateRecord_uses_inputs_verbatim
    (cloudfrontID hostedzoneID new_domain aliasName : String)
    (snapshots : List DistributionSnapshot) (jitters : List ℚ) :
    (∀ (ipv6_enabled : Bool),
      ∀ c ∈ (updateRecord hostedzoneID new_domain aliasName ipv6_enabled).2.changes,
        c.resourceRecordSet.name = aliasName ∧
        c.resourceRecordSet.aliasTarget.dnsName = new_domain) ∧
    (∀ call ∈ (main cloudfrontID hostedzoneID new_domain aliasName snapshots jitters).2,
      call.1 = hostedzoneID ∧
      ∀ c ∈ call.2.changes,
        c.resourceRecordSet.name = aliasName ∧
        c.resourceRecordSet.aliasTarget.dnsName = new_domain) := by
  have hvb : ∀ (ipv6_enabled : Bool),
      ∀ c ∈ (updateRecord hostedzoneID new_domain aliasName ipv6_enabled).2.changes,
        c.resourceRecordSet.name = aliasName ∧
        c.resourceRecordSet.aliasTarget.dnsName = new_domain := by
    intro ipv6_enabled c hc
    cases ipv6_enabled <;> simp [updateRecord] at hc
    · subst hc; exact ⟨rfl, rfl⟩
    · rcases hc with hc | hc <;> subst hc <;> exact ⟨rfl, rfl⟩
  refine ⟨hvb, ?_⟩
  intro call hcall
  unfold main at hcall
  rcases hval : validate_inputs cloudfrontID hostedzoneID new_domain aliasName with msgs | u
  · rw [hval] at hcall; simp at hcall
  · rw [hval] at hcall
    simp only [] at hcall
    rcases ho : (checkAlias snapshots jitters aliasName new_domain).outcome with b | ⟨e, a⟩ | _
    · rw [ho] at hcall
      simp at hcall
      subst hcall
      exact ⟨rfl, hvb b⟩
    · rw [ho] at hcall
      simp at hcall
    · rw [ho] at hcall
      simp at hcall

/-- Witness for claim C10: a target domain ending in a root-label dot is
emitted with the dot intact. -/
theorem updateRecord_uses_inputs_verbatim_witness :
    ((updateRecord "Z00646902JW6C5QG3Q2NG" "d2mz62fpvuge8k.cloudfront.net."
        "www.example.com" true).2.changes.headI.resourceRecordSet.aliasTarget.dnsName =
      "d2mz62fpvuge8k.cloudfront.net.") :=
  ((updateRecord_uses_inputs_verbatim "EZDLMTR1D3MHD" "Z00646902JW6C5QG3Q2NG"
      "d2mz62fpvuge8k.cloudfront.net." "www.example.com" [] []).1 true
    ((updateRecord "Z00646902JW6C5QG3Q2NG" "d2mz62fpvuge8k.cloudfront.net."
        "www.example.com" true).2.changes.headI) (by decide)).2

/- ### Claims C7, C8, C9 -/

/-- Claim C7: `main` issues the DNS update call at most once, and only with
the IPv6 flag that the poller returned on readiness; on a validation
failure or a domain mismatch no DNS update call is made at all. -/
theorem main_updates_at_most_once_after_ready
    (cloudfrontID hostedzoneID new_domain aliasName : String)
    (snapshots : List DistributionSnapshot) (jitters : List ℚ) :
    (main cloudfrontID hostedzoneID new_domain aliasName snapshots jitters).2.length ≤ 1 ∧
    (∀ msgs,
      (main cloudfrontID hostedzoneID new_domain aliasName snapshots jitters).1 =
        RunResult.validationFailure msgs →
      (main cloudfrontID hostedzoneID new_domain aliasName snapshots jitters).2 = []) ∧
    (∀ e a,
      (main cloudfrontID hostedzoneID new_domain aliasName snapshots jitters).1 =
        RunResult.domainMismatch e a →
      (main cloudfrontID hostedzoneID new_domain aliasName snapshots jitters).2 = []) ∧
    ((main cloudfrontID hostedzoneID new_domain aliasName snapshots jitters).2 ≠ [] →
      ∃ b, (checkAlias snapshots jitters aliasName new_domain).outcome =
          PollOutcome.ready b ∧
        (main cloudfrontID hostedzoneID new_domain aliasName snapshots jitters).1 =
          RunResult.success b ∧
        (main cloudfrontID hostedzoneID new_domain aliasName snapshots jitters).2 =
          [updateRecord hostedzoneID new_domain aliasName b]) := by
  rcases hval : validate_inputs cloudfrontID hostedzoneID new_domain aliasName with msgs | u
  · have hm : main cloudfrontID hostedzoneID new_domain aliasName snapshots jitters =
        (RunResult.validationFailure msgs, []) := by
      unfold main; rw [hval]
    rw [hm]
    refine ⟨by simp, fun _ _ => rfl, fun _ _ _ => rfl, ?_⟩
    intro h
    exact absurd rfl h
  · rcases ho : (checkAlias snapshots jitters aliasName new_domain).outcome with b | ⟨e, a⟩ | _
    · have hm : main cloudfrontID hostedzoneID new_domain aliasName snapshots jitters =
          (RunResult.success b, [updateRecord hostedzoneID new_domain aliasName b]) := by
        unfold main; rw [hval]; simp only []; rw [ho]
      rw [hm]
      refine ⟨by simp, ?_, ?_, ?_⟩
      · intro msgs h; simp at h
      · intro e a h; simp at h
      · intro _; exact ⟨b, rfl, rfl, rfl⟩
    · have hm : main cloudfrontID hostedzoneID new_domain aliasName snapshots jitters =
          (RunResult.domainMismatch e a, []) := by
        unfold main; rw [hval]; simp only []; rw [ho]
      rw [hm]
      refine ⟨by simp, fun _ _ => rfl, fun _ _ _ => rfl, ?_⟩
      intro h
      exact absurd rfl h
    · have hm : main cloudfrontID hostedzoneID new_domain aliasName snapshots jitters =
          (RunResult.stillPolling, []) := by
        unfold main; rw [hval]; simp only []; rw [ho]
      rw [hm]
      refine ⟨by simp, fun _ _ => rfl, fun _ _ _ => rfl, ?_⟩
      intro h
      exact absurd rfl h

/-- Witness for claim C7: a blank distribution id aborts the run with zero
DNS update calls. -/
theorem main_updates_at_most_once_after_ready_witness :
    (main "" "Z00646902JW6C5QG3Q2NG" "d2mz62fpvuge8k.cloudfront.net" "www.example.com"
      [] []).2 = [] :=
  (main_updates_at_most_once_after_ready "" "Z00646902JW6C5QG3Q2NG"
      "d2mz62fpvuge8k.cloudfront.net" "www.example.com" [] []).2.1
    (validationErrors "" "Z00646902JW6C5QG3Q2NG" "d2mz62fpvuge8k.cloudfront.net"
      "www.example.com") (by decide)

/-- Claim C8: when the alias is absent from the first `n-1` snapshots and
present in the `n`-th (with the first snapshot's domain matching), the poll
loop performs exactly `n` fetches and `n-1` sleeps, each sleep lasting
`3 + jitter` seconds with jitter in `[0,5)` — hence each in `[3,8)` — and
then declares readiness (here `n = pre.length + 1`). -/
theorem checkAlias_poll_sleep_trace (aliasName expected_domain : String)
    (pre post : List DistributionSnapshot) (sr : DistributionSnapshot)
    (jitters : List ℚ)
    (hpre : ∀ t ∈ pre, aliasName ∉ t.aliasItems.getD [])
    (hsr : aliasName ∈ sr.aliasItems.getD [])
    (hjit : pre.length ≤ jitters.length)
    (hjrange : ∀ j ∈ jitters, 0 ≤ j ∧ j < 5)
    (hdom : rstripDots expected_domain =
      rstripDots (pre ++ sr :: post).headI.domainName) :
    (checkAlias (pre ++ sr :: post) jitters aliasName expected_domain).fetches =
      pre.length + 1 ∧
    (checkAlias (pre ++ sr :: post) jitters aliasName expected_domain).sleeps.length =
      pre.length ∧
    (∀ d ∈ (checkAlias (pre ++ sr :: post) jitters aliasName expected_domain).sleeps,
      3 ≤ d ∧ d < 8) ∧
    (checkAlias (pre ++ sr :: post) jitters aliasName expected_domain).outcome =
      PollOutcome.ready (sr.isIPV6Enabled.getD false) ∧
    (checkAlias (pre ++ sr :: post) jitters aliasName expected_domain).sleeps =
      (jitters.take pre.length).map (fun j => 3 + j) := by
  have h := checkAlias_found aliasName expected_domain pre post sr jitters hpre hsr hjit hdom
  rw [h]
  refine ⟨rfl, ?_, ?_, rfl, rfl⟩
  · simp [List.length_take, Nat.min_eq_left hjit]
  · intro d hd
    simp only [List.mem_map] at hd
    obtain ⟨j, hj, rfl⟩ := hd
    have hjr := hjrange j (List.take_subset _ _ hj)
    exact ⟨by linarith [hjr.1], by linarith [hjr.2]⟩

/-- Witness for claim C8: alias absent on the first two polls and present on
the third yields three fetches and exactly two sleep intervals. -/
theorem checkAlias_poll_sleep_trace_witness :
    (checkAlias [⟨"d.net", some [], none⟩, ⟨"d.net", some ["other.com"], none⟩,
        ⟨"d.net", some ["other.com", "w"], some false⟩] [1, 2] "w" "d.net").fetches = 3 ∧
    (checkAlias [⟨"d.net", some [], none⟩, ⟨"d.net", some ["other.com"], none⟩,
        ⟨"d.net", some ["other.com", "w"], some false⟩] [1, 2] "w" "d.net").sleeps.length = 2 :=
  ⟨(checkAlias_poll_sleep_trace "w" "d.net"
      [⟨"d.net", some [], none⟩, ⟨"d.net", some ["other.com"], none⟩] []
      ⟨"d.net", some ["other.com", "w"], some false⟩ [1, 2]
      (by decide) (by decide) (by decide) (by decide) (by decide)).1,
   (checkAlias_poll_sleep_trace "w" "d.net"
      [⟨"d.net", some [], none⟩, ⟨"d.net", some ["other.com"], none⟩] []
      ⟨"d.net", some ["other.com", "w"], some false⟩ [1, 2]
      (by decide) (by decide) (by decide) (by decide) (by decide)).2.1⟩

/-- Claim C9: the dual-stack flag returned on readiness is read from the
ready (last-fetched) snapshot `sr`, with a missing `IsIPV6Enabled` field
defaulting to false — in which case the swapper's batch contains only the
single A-record change. -/
theorem checkAlias_ipv6_default_false
    (aliasName expected_domain hostedzoneID new_domain : String)
    (pre post : List DistributionSnapshot) (sr : DistributionSnapshot)
    (jitters : List ℚ)
    (hpre : ∀ t ∈ pre, aliasName ∉ t.aliasItems.getD [])
    (hsr : aliasName ∈ sr.aliasItems.getD [])
    (hjit : pre.length ≤ jitters.length)
    (hdom : rstripDots expected_domain =
      rstripDots (pre ++ sr :: post).headI.domainName) :
    (checkAlias (pre ++ sr :: post) jitters aliasName expected_domain).outcome =
      PollOutcome.ready (sr.isIPV6Enabled.getD false) ∧
    (sr.isIPV6Enabled = none →
      (checkAlias (pre ++ sr :: post) jitters aliasName expected_domain).outcome =
        PollOutcome.ready false ∧
      ((updateRecord hostedzoneID new_domain aliasName false).2.changes.map
        (fun c => c.resourceRecordSet.type) = [RecordType.A])) := by
  have h := checkAlias_found aliasName expected_domain pre post sr jitters hpre hsr hjit hdom
  rw [h]
  refine ⟨rfl, ?_⟩
  intro hn
  rw [hn]
  exact ⟨rfl, rfl⟩

/-- Witness for claim C9: a ready snapshot with no `IsIPV6Enabled` key
yields `ipv6_enabled = false`. -/
theorem checkAlias_ipv6_default_false_witness :
    (checkAlias [⟨"d.net", some ["w"], none⟩] [] "w" "d.net").outcome =
      PollOutcome.ready false :=
  ((checkAlias_ipv6_default_false "w" "d.net" "Z00646902JW6C5QG3Q2NG" "t.net" [] []
      ⟨"d.net", some ["w"], none⟩ []
      (by decide) (by decide) (by decide) (by decide)).2 rfl).1

end CFDNS
